import Mathlib

set_option maxRecDepth 100000

/-!
Verification of `cellprofiler/modules/loadsingleimage.py` (the
`LoadSingleImage` pipeline module) against its natural-language
specification.

The shallow embedding below translates the module's pure logic into Lean
definitions:

* module-level string constants keep their Python names;
* the settings of one `LoadSingleImage` instance become a structure holding
  `dir_choice`, `custom_directory` and the ordered list of file settings;
* the host collaborators (default input/output directories, metadata
  substitution, image decoding) are fields of a `Workspace` record, since the
  spec declares them external interfaces supplied by the host;
* Python `dict` is refined by an association list with in-place update
  (`upsert`), which preserves the key-multiplicity and value semantics of the
  dict used in `get_file_names`;
* `hashlib.md5` is the standard MD5 algorithm, implemented here over byte
  lists with `Nat` arithmetic mod 2^32;
* fallible Python code (list indexing that can raise `IndexError`, name
  lookups that can raise `NameError`, an `UnboundLocalError` return path)
  is embedded with `Option` / `Except`.

The model fixes the POSIX platform: `os.sep = '/'` and `os.altsep = None`,
so the `os.altsep` disjuncts in `get_base_directory` are `False`.
-/

/-! ## Module-level constants (loadsingleimage.py lines 44-45) -/

def DIR_CUSTOM_FOLDER : String := "Custom folder"

def DIR_CUSTOM_WITH_METADATA : String := "Custom with metadata"

/-- Modelled from the spec: `DEFAULT_INPUT_FOLDER_NAME` is imported from
`cellprofiler.preferences` (not under src/); the spec calls it the
canonical default-input-folder label. -/
def DEFAULT_INPUT_FOLDER_NAME : String := "Default Input Folder"

/-- Modelled from the spec: `DEFAULT_OUTPUT_FOLDER_NAME` is imported from
`cellprofiler.preferences` (not under src/); the spec calls it the
canonical default-output-folder label. -/
def DEFAULT_OUTPUT_FOLDER_NAME : String := "Default Output Folder"

/-- Modelled from the spec: `cps.DO_NOT_USE` from `cellprofiler.settings`
(not under src/), the marker the legacy format uses for disabled
image entries. -/
def DO_NOT_USE : String := "Do not use"

/-- Modelled from the spec: `cpmeas.IMAGE`, the "Image" measurement
entity name from `cellprofiler.measurements` (not under src/). -/
def IMAGE : String := "Image"

/-! ## MD5 (hashlib.md5, RFC 1321) over byte lists

`run` hashes `np.ascontiguousarray(pixel_data).data`, i.e. the raw
contiguous bytes of the pixel array, with `hashlib.md5` and records
`digest.hexdigest()`.  `hashlib` is the Python standard library, so the
algorithm itself is fixed by RFC 1321; it is implemented here directly. -/

def w32 : Nat := 4294967296

def add32 (a b : Nat) : Nat := (a + b) % w32

def lnot32 (x : Nat) : Nat := (x % w32) ^^^ 0xffffffff

def rotl32 (x n : Nat) : Nat :=
  (((x % w32) <<< n) % w32) ||| ((x % w32) >>> (32 - n))

/-- The round function: F for rounds 0-15, G for 16-31, H for 32-47,
I for 48-63. -/
def md5F (i b c d : Nat) : Nat :=
  if i < 16 then (b &&& c) ||| (lnot32 b &&& d)
  else if i < 32 then (d &&& b) ||| (lnot32 d &&& c)
  else if i < 48 then b ^^^ c ^^^ d
  else c ^^^ (b ||| lnot32 d)

/-- Message-word schedule index for round `i`. -/
def md5g (i : Nat) : Nat :=
  if i < 16 then i
  else if i < 32 then (5 * i + 1) % 16
  else if i < 48 then (3 * i + 5) % 16
  else (7 * i) % 16

/-- The 64 sine-derived additive constants. -/
def md5K : List Nat :=
  [0xd76aa478, 0xe8c7b756, 0x242070db, 0xc1bdceee,
   0xf57c0faf, 0x4787c62a, 0xa8304613, 0xfd469501,
   0x698098d8, 0x8b44f7af, 0xffff5bb1, 0x895cd7be,
   0x6b901122, 0xfd987193, 0xa679438e, 0x49b40821,
   0xf61e2562, 0xc040b340, 0x265e5a51, 0xe9b6c7aa,
   0xd62f105d, 0x02441453, 0xd8a1e681, 0xe7d3fbc8,
   0x21e1cde6, 0xc33707d6, 0xf4d50d87, 0x455a14ed,
   0xa9e3e905, 0xfcefa3f8, 0x676f02d9, 0x8d2a4c8a,
   0xfffa3942, 0x8771f681, 0x6d9d6122, 0xfde5380c,
   0xa4beea44, 0x4bdecfa9, 0xf6bb4b60, 0xbebfbc70,
   0x289b7ec6, 0xeaa127fa, 0xd4ef3085, 0x04881d05,
   0xd9d4d039, 0xe6db99e5, 0x1fa27cf8, 0xc4ac5665,
   0xf4292244, 0x432aff97, 0xab9423a7, 0xfc93a039,
   0x655b59c3, 0x8f0ccc92, 0xffeff47d, 0x85845dd1,
   0x6fa87e4f, 0xfe2ce6e0, 0xa3014314, 0x4e0811a1,
   0xf7537e82, 0xbd3af235, 0x2ad7d2bb, 0xeb86d391]

/-- The 64 per-round left-rotation amounts. -/
def md5S : List Nat :=
  [7, 12, 17, 22, 7, 12, 17, 22, 7, 12, 17, 22, 7, 12, 17, 22,
   5, 9, 14, 20, 5, 9, 14, 20, 5, 9, 14, 20, 5, 9, 14, 20,
   4, 11, 16, 23, 4, 11, 16, 23, 4, 11, 16, 23, 4, 11, 16, 23,
   6, 10, 15, 21, 6, 10, 15, 21, 6, 10, 15, 21, 6, 10, 15, 21]

/-- Little-endian 4-byte groups to 32-bit words. -/
def bytesToWords : List Nat → List Nat
  | b0 :: b1 :: b2 :: b3 :: rest =>
      (b0 % 256 + 256 * (b1 % 256) + 65536 * (b2 % 256) +
        16777216 * (b3 % 256)) :: bytesToWords rest
  | _ => []

/-- Split a byte list into 64-byte blocks (fuel-indexed so that it reduces
definitionally; `l.length` is always enough fuel since each step drops at
least one element). -/
def chunks64Aux : Nat → List Nat → List (List Nat)
  | 0, _ => []
  | _, [] => []
  | fuel + 1, b :: rest =>
      (b :: rest).take 64 :: chunks64Aux fuel ((b :: rest).drop 64)

def chunks64 (l : List Nat) : List (List Nat) := chunks64Aux l.length l

/-- MD5 padding: append 0x80, zero-fill to 56 mod 64, then the bit length
as 8 little-endian bytes. -/
def padMsg (msg : List Nat) : List Nat :=
  let len := msg.length
  let zeros := (119 - len % 64) % 64
  let bitlen := (len * 8) % (2 ^ 64)
  msg ++ [0x80] ++ List.replicate zeros 0 ++
    (List.range 8).map (fun j => (bitlen >>> (8 * j)) % 256)

/-- One 64-byte block updates the running state `(a, b, c, d)`. -/
def md5ProcessBlock (st : Nat × Nat × Nat × Nat) (block : List Nat) :
    Nat × Nat × Nat × Nat :=
  let M := bytesToWords block
  let inner := (List.range 64).foldl
    (fun (s : Nat × Nat × Nat × Nat) i =>
      let (a, b, c, d) := s
      let f := add32 (add32 (add32 a (md5F i b c d)) (md5K.getD i 0))
        (M.getD (md5g i) 0)
      (d, add32 b (rotl32 f (md5S.getD i 0)), b, c)) st
  (add32 st.1 inner.1, add32 st.2.1 inner.2.1,
   add32 st.2.2.1 inner.2.2.1, add32 st.2.2.2 inner.2.2.2)

/-- A 32-bit word as 4 little-endian bytes. -/
def wordToBytes (w : Nat) : List Nat :=
  [w % 256, w / 256 % 256, w / 65536 % 256, w / 16777216 % 256]

/-- Serialize the final state to the 16 digest bytes. -/
def stateToBytes (st : Nat × Nat × Nat × Nat) : List Nat :=
  wordToBytes st.1 ++ wordToBytes st.2.1 ++ wordToBytes st.2.2.1 ++
    wordToBytes st.2.2.2

/-- The 16 MD5 digest bytes of a byte list. -/
def md5bytes (msg : List Nat) : List Nat :=
  stateToBytes ((chunks64 (padMsg msg)).foldl md5ProcessBlock
    (0x67452301, 0xefcdab89, 0x98badcfe, 0x10325476))

/-- Lowercase hexadecimal digits, as `hexdigest` uses. -/
def hexDigits : List Char := "0123456789abcdef".data

def hexChar (n : Nat) : Char := hexDigits.getD (n % 16) '0'

def byteToHex (b : Nat) : List Char := [hexChar (b / 16), hexChar b]

/-- `hashlib.md5(msg).hexdigest()`: the digest bytes in lowercase hex. -/
def md5hexdigest (msg : List Nat) : String :=
  String.mk (((md5bytes msg).map byteToHex).flatten)

example : md5hexdigest [] = "d41d8cd98f00b204e9800998ecf8427e" := by decide

example : md5hexdigest [97, 98, 99] = "900150983cd24fb0d6963f7d28e17f72" := by
  decide

/-! ## Data model

One `LoadSingleImage` instance holds `dir_choice`, `custom_directory` and an
ordered list of `(file_name, image_name)` settings groups (`create_settings`
/ `add_file` / `settings`).  The host-supplied collaborators listed in the
spec's "External interfaces" section form the `Workspace`. -/

structure FileSetting where
  file_name : String
  image_name : String

structure LoadSingleImage where
  dir_choice : String
  custom_directory : String
  file_settings : List FileSetting

/-- The run context.  `default_image_directory` is
`cpprefs.get_default_image_directory()` (the default input folder),
`default_output_directory` is `cpprefs.get_default_output_directory()`,
`apply_metadata` is `workspace.measurements.apply_metadata`, and
`pixel_bytes root file` is the raw contiguous byte content of
`LoadImagesImageProvider(name, root, file).provide_image(...).pixel_data`
(modelled from the spec: `image_provider.decode(directory, filename) ->
pixel_array`, external to this module). -/
structure Workspace where
  default_image_directory : String
  default_output_directory : String
  apply_metadata : String → String
  pixel_bytes : String → String → List Nat

/-- Python `s[:n]` on strings (character-based, lenient about bounds). -/
def str_take (s : String) (n : Nat) : String := String.mk (s.data.take n)

/-- Python `s[n:]` on strings. -/
def str_drop (s : String) (n : Nat) : String := String.mk (s.data.drop n)

/-- Is `pat` a prefix of `hay`? (for Python `str.startswith` / `str.find`). -/
def isPre (pat hay : List Char) : Bool :=
  match pat, hay with
  | [], _ => true
  | _ :: _, [] => false
  | p :: ps, h :: hs => if p = h then isPre ps hs else false

/-- Python `s.startswith(pre)`. -/
def str_starts (s pre : String) : Bool := isPre pre.data s.data

/-- Python `s.endswith(suf)`. -/
def str_ends (s suf : String) : Bool := isPre suf.data.reverse s.data.reverse

/-- POSIX `os.path.join` for two components, as used at lines 204 and 208. -/
def path_join (a b : String) : String :=
  if str_starts b "/" then b
  else if a = "" ∨ str_ends a "/" then a ++ b
  else a ++ "/" ++ b

/-- `LoadSingleImage.get_base_directory` (lines 192-210).  On POSIX
`os.sep = '/'` and `os.altsep = None`, so the two `os.altsep` disjuncts are
`False`.  If `dir_choice` matches none of the four choices, the Python
function raises `UnboundLocalError` at `return base_directory`; that path is
`none`. -/
def get_base_directory (cfg : LoadSingleImage) (ws : Workspace) :
    Option String :=
  if cfg.dir_choice = DEFAULT_INPUT_FOLDER_NAME then
    some ws.default_image_directory
  else if cfg.dir_choice = DEFAULT_OUTPUT_FOLDER_NAME then
    some ws.default_output_directory
  else if cfg.dir_choice = DIR_CUSTOM_FOLDER ∨
      cfg.dir_choice = DIR_CUSTOM_WITH_METADATA then
    let base0 := cfg.custom_directory
    let base1 := if cfg.dir_choice = DIR_CUSTOM_WITH_METADATA then
      ws.apply_metadata base0 else base0
    some (if str_take base1 2 = "./" then
        path_join ws.default_image_directory (str_drop base1 2)
      else if str_take base1 2 = "&/" then
        path_join ws.default_output_directory (str_drop base1 2)
      else base1)
  else none

/-- `result[key] = value` on a Python dict, refined by an association list:
an existing binding of the key is overwritten in place, otherwise the new
binding goes to the end. -/
def upsert (k v : String) : List (String × String) → List (String × String)
  | [] => [(k, v)]
  | p :: rest => if p.1 = k then (k, v) :: rest else p :: upsert k v rest

/-- Reading a Python dict: the value bound to `k`, if any. -/
def dict_get (k : String) : List (String × String) → Option String
  | [] => none
  | p :: rest => if p.1 = k then some p.2 else dict_get k rest

/-- `LoadSingleImage.get_file_names` (lines 212-225): a dict mapping each
configured image name to its metadata-substituted filename, built in entry
order. -/
def get_file_names (cfg : LoadSingleImage) (ws : Workspace) :
    List (String × String) :=
  cfg.file_settings.foldl
    (fun acc fs => upsert fs.image_name (ws.apply_metadata fs.file_name) acc)
    []

/-- The last file setting carrying a given image name, if any (the binding a
Python dict retains after iterating all entries). -/
def last_with_name (name : String) (l : List FileSetting) :
    Option FileSetting :=
  l.foldl (fun acc fs => if fs.image_name = name then some fs else acc) none

/-- A `LoadImagesImageProvider(name, root, file)` handle as registered with
`workspace.image_set.providers`. -/
structure Provider where
  name : String
  root : String
  file : String

/-- The three measurements `run` writes for one dict entry
`p = (image_name, file_name)` (lines 239-244): tuples of
(object, feature, value). -/
def image_measurements (ws : Workspace) (root : String)
    (p : String × String) : List (String × String × String) :=
  [(IMAGE, "FileName_" ++ p.1, p.2),
   (IMAGE, "PathName_" ++ p.1, root),
   (IMAGE, "MD5Digest_" ++ p.1, md5hexdigest (ws.pixel_bytes root p.2))]

/-- The externally visible effects of `run`: providers appended to the image
set and measurements added to the measurement store. -/
structure RunResult where
  providers : List Provider
  measurements : List (String × String × String)

/-- `LoadSingleImage.run` (lines 227-250).  The loop over `dict.keys()`
appends one provider and one measurement triple per dict key; the
`workspace.frame` display-table block is GUI-only observability and has no
effect on providers or measurements.  `none` is the `UnboundLocalError`
path of `get_base_directory`. -/
def run (cfg : LoadSingleImage) (ws : Workspace) : Option RunResult :=
  (get_base_directory cfg ws).map fun root =>
    let d := get_file_names cfg ws
    { providers := d.map fun p => ⟨p.1, root, p.2⟩
      measurements := (d.map (image_measurements ws root)).flatten }

/-! ## Measurement columns -/

/-- Modelled from the spec: the three column kinds from
`cellprofiler.measurements` (not under src/) — `COLTYPE_VARCHAR_FILE_NAME`,
`COLTYPE_VARCHAR_PATH_NAME` and `COLTYPE_VARCHAR_FORMAT % n`
(fixed-length-n text). -/
inductive ColType where
  | varcharFileName : ColType
  | varcharPathName : ColType
  | varcharFormat : Nat → ColType
deriving DecidableEq

/-- `LoadSingleImage.get_measurement_columns` (lines 252-261):
`'_'.join((feature, image_name))` is `feature ++ "_" ++ image_name`. -/
def get_measurement_columns (cfg : LoadSingleImage) :
    List (String × String × ColType) :=
  cfg.file_settings.foldl
    (fun columns fs =>
      columns ++
        [(IMAGE, "FileName" ++ "_" ++ fs.image_name, ColType.varcharFileName),
         (IMAGE, "PathName" ++ "_" ++ fs.image_name, ColType.varcharPathName),
         (IMAGE, "MD5Digest" ++ "_" ++ fs.image_name, ColType.varcharFormat 32)])
    []

/-! ## Settings migration (`upgrade_settings`, lines 263-298)

`DIR_DEFAULT_IMAGE_FOLDER` and `DIR_DEFAULT_OUTPUT_FOLDER` are *local*
variables of `upgrade_settings` in the source (lines 265-266); they are not
module-level names (the module-level name table below omits them). -/

def DIR_DEFAULT_IMAGE_FOLDER : String := "Default input folder"

def DIR_DEFAULT_OUTPUT_FOLDER : String := "Default output folder"

/-- Modelled from the spec: the name rewriting done by
`standardize_default_folder_names` from `cellprofiler.preferences` (not
under src/) on one string — any legacy default-input/default-output folder
name is rewritten to the standardized current naming, anything else is left
alone.  The standardized names are fixed points. -/
def std_folder_name (s : String) : String :=
  if s ∈ ["Default input folder", "Default Input Folder",
      "Default image folder", "Default image directory",
      "Default input directory"] then DEFAULT_INPUT_FOLDER_NAME
  else if s ∈ ["Default output folder", "Default Output Folder",
      "Default output directory"] then DEFAULT_OUTPUT_FOLDER_NAME
  else s

/-- Modelled from the spec: `standardize_default_folder_names(values, slot)`
rewrites the directory-choice string at `slot` with `std_folder_name`. -/
def standardize_default_folder_names (vals : List String) (slot : Nat) :
    List String :=
  match vals.get? slot with
  | some v => vals.set slot (std_folder_name v)
  | none => vals

/-- Python `del l[i:i+2]` (slice deletion is lenient about bounds). -/
def delSlice2 (l : List String) (i : Nat) : List String :=
  l.take i ++ l.drop (i + 2)

/-- One iteration of the loop at lines 281-283: read `l[i+1]` (raising
`IndexError` when out of range) and delete the pair at `i` when it is the
"Do not use" marker. -/
def checkDel (l : List String) (i : Nat) : Option (List String) :=
  match l.get? (i + 1) with
  | none => none
  | some v => some (if v = DO_NOT_USE then delSlice2 l i else l)

/-- The `for i in [8, 6, 4]` loop removing "Do not use" image entries. -/
def removeDoNotUse (l : List String) : Option (List String) := do
  let l8 ← checkDel l 8
  let l6 ← checkDel l8 6
  checkDel l6 4

/-- The `from_matlab and variable_revision_number == 4` block of
`upgrade_settings` (lines 268-286): reinterpret the first field from the
sentinel in `setting_values[1]`, strip "Do not use" pairs, clear the legacy
flag and set revision 1.  `none` is an `IndexError`. -/
def upgrade_matlab_phase (setting_values : List String)
    (variable_revision_number : Nat) (from_matlab : Bool) :
    Option (List String × Nat × Bool) :=
  if from_matlab ∧ variable_revision_number = 4 then
    match setting_values.get? 1 with
    | none => none
    | some s1 =>
        let first :=
          if s1 = "." then DIR_DEFAULT_IMAGE_FOLDER
          else if s1 = "&" then DIR_DEFAULT_OUTPUT_FOLDER
          else DIR_CUSTOM_FOLDER
        (removeDoNotUse (setting_values.set 0 first)).map
          (fun nv => (nv, 1, false))
  else some (setting_values, variable_revision_number, from_matlab)

/-- The `variable_revision_number == 1 and not from_matlab` block
(lines 290-292): rename a leading "Default image..." directory choice. -/
def upgrade_rename_phase (sv : List String) (rev : Nat) (fm : Bool) :
    Option (List String) :=
  if rev = 1 ∧ fm = false then
    match sv.get? 0 with
    | none => none
    | some s0 =>
        some (if str_starts s0 "Default image" then
          DIR_DEFAULT_IMAGE_FOLDER :: sv.drop 1 else sv)
  else some sv

/-- `LoadSingleImage.upgrade_settings` (lines 263-298): the Matlab phase,
then the revision-1 rename phase, then the always-applied
standardization of the directory-choice slot.  `module_name` is unused, as
in the source.  `none` is an `IndexError` on the list accesses
`setting_values[1]`, `new_setting_values[i+1]` or `setting_values[0]`. -/
def upgrade_settings (setting_values : List String)
    (variable_revision_number : Nat) (from_matlab : Bool) :
    Option (List String × Nat × Bool) :=
  match upgrade_matlab_phase setting_values variable_revision_number
      from_matlab with
  | none => none
  | some (sv1, rev1, fm1) =>
      match upgrade_rename_phase sv1 rev1 fm1 with
      | none => none
      | some sv2 =>
          some (standardize_default_folder_names sv2 0, rev1, fm1)

/-! ## `prepare_to_create_batch` (lines 149-190)

The first statement compares `self.dir_choice` against the name
`DIR_DEFAULT_IMAGE_FOLDER`, which is neither a local of this function, nor a
module-level name, nor a builtin — so evaluating it raises `NameError`.
The embedding routes every module-level string-constant reference through an
explicit name table. -/

inductive PyErr where
  | nameError : String → PyErr
deriving DecidableEq

/-- The string constants actually defined at module scope of
loadsingleimage.py (lines 42-45): the two `DIR_CUSTOM_*` constants defined
in the file and the two folder names imported from
`cellprofiler.preferences`.  `DIR_DEFAULT_IMAGE_FOLDER` and
`DIR_DEFAULT_OUTPUT_FOLDER` are absent: they exist only as locals of
`upgrade_settings`. -/
def moduleGlobalStrings : List (String × String) :=
  [("DIR_CUSTOM_FOLDER", DIR_CUSTOM_FOLDER),
   ("DIR_CUSTOM_WITH_METADATA", DIR_CUSTOM_WITH_METADATA),
   ("DEFAULT_INPUT_FOLDER_NAME", DEFAULT_INPUT_FOLDER_NAME),
   ("DEFAULT_OUTPUT_FOLDER_NAME", DEFAULT_OUTPUT_FOLDER_NAME)]

/-- Python name resolution for a global string constant; a name that is not
in scope raises `NameError` (it is not a builtin either). -/
def lookupGlobal (n : String) : Except PyErr String :=
  match dict_get n moduleGlobalStrings with
  | some v => Except.ok v
  | none => Except.error (PyErr.nameError n)

def strFindAux (pat : List Char) : List Char → Nat → Int
  | [], i => if isPre pat [] then (i : Int) else -1
  | c :: t, i =>
      if isPre pat (c :: t) then (i : Int) else strFindAux pat t (i + 1)

/-- Python `s.find(pat)`: index of the first occurrence, or -1. -/
def str_find (s pat : String) : Int := strFindAux pat.data s.data 0

/-- The mutable settings `prepare_to_create_batch` reads and writes. -/
structure BatchSettings where
  dir_choice : String
  custom_directory : String

/-- `LoadSingleImage.prepare_to_create_batch` (lines 149-190).
`get_absolute_path` is `cpprefs.get_absolute_path` and `fn_alter_path` the
callback parameter, both host-supplied.  Every reference to a module-level
string constant goes through `lookupGlobal`; the Python function's
`return True` paths deliver the updated settings paired with `true`. -/
def prepare_to_create_batch (st : BatchSettings)
    (default_image_dir default_output_dir : String)
    (get_absolute_path fn_alter_path : String → String) :
    Except PyErr (BatchSettings × Bool) := do
  let dImg ← lookupGlobal "DIR_DEFAULT_IMAGE_FOLDER"
  if st.dir_choice = dImg then
    let dCustom ← lookupGlobal "DIR_CUSTOM_FOLDER"
    let st1 : BatchSettings := ⟨dCustom, default_image_dir⟩
    pure (⟨st1.dir_choice, fn_alter_path st1.custom_directory⟩, true)
  else
    let dOut ← lookupGlobal "DIR_DEFAULT_OUTPUT_FOLDER"
    if st.dir_choice = dOut then
      let dCustom ← lookupGlobal "DIR_CUSTOM_FOLDER"
      let st1 : BatchSettings := ⟨dCustom, default_output_dir⟩
      pure (⟨st1.dir_choice, fn_alter_path st1.custom_directory⟩, true)
    else
      let dCustom ← lookupGlobal "DIR_CUSTOM_FOLDER"
      if st.dir_choice = dCustom then
        let st1 : BatchSettings :=
          ⟨st.dir_choice, get_absolute_path st.custom_directory⟩
        pure (⟨st1.dir_choice, fn_alter_path st1.custom_directory⟩, true)
      else
        let dMeta ← lookupGlobal "DIR_CUSTOM_WITH_METADATA"
        if st.dir_choice = dMeta then
          let path := st.custom_directory
          let endNew := str_find path "\\g<"
          let endOld := str_find path "\\(?"
          let e := if endNew ≠ -1 ∧ (endOld = -1 ∨ endOld > endNew) then
            endNew else endOld
          if e ≠ -1 then
            let pre := str_take path e.toNat
            let pre := fn_alter_path (get_absolute_path pre)
            pure (⟨st.dir_choice, pre ++ str_drop path e.toNat⟩, true)
          else
            pure (⟨st.dir_choice, fn_alter_path st.custom_directory⟩, true)
        else
          pure (⟨st.dir_choice, fn_alter_path st.custom_directory⟩, true)

/-! ## Helper lemmas: MD5 digest shape -/

lemma md5bytes_length (msg : List Nat) : (md5bytes msg).length = 16 := by
  unfold md5bytes stateToBytes wordToBytes
  simp

lemma flatten_byteToHex_length (l : List Nat) :
    ((l.map byteToHex).flatten).length = 2 * l.length := by
  induction l with
  | nil => simp
  | cons b t ih =>
      simp only [List.map_cons, List.flatten_cons, List.length_append, ih,
        byteToHex, List.length_cons, List.length_nil, List.length_map]
      omega

lemma hexChar_mem (n : Nat) : hexChar n ∈ hexDigits := by
  have hlen : hexDigits.length = 16 := by decide
  have h : n % 16 < hexDigits.length := by
    have h16 : n % 16 < 16 := Nat.mod_lt _ (by omega)
    omega
  rw [hexChar, List.getD_eq_getElem _ _ h]
  exact List.getElem_mem h

lemma md5hexdigest_length (msg : List Nat) :
    (md5hexdigest msg).length = 32 := by
  have h1 : (md5hexdigest msg).length =
      (((md5bytes msg).map byteToHex).flatten).length := rfl
  rw [h1, flatten_byteToHex_length, md5bytes_length]

lemma md5hexdigest_chars (msg : List Nat) :
    ∀ c ∈ (md5hexdigest msg).data, c ∈ hexDigits := by
  intro c hc
  have hc2 : c ∈ ((md5bytes msg).map byteToHex).flatten := hc
  rcases List.mem_flatten.mp hc2 with ⟨sub, hsub, hcsub⟩
  rcases List.mem_map.mp hsub with ⟨b, _, rfl⟩
  simp only [byteToHex, List.mem_cons, List.not_mem_nil, or_false] at hcsub
  rcases hcsub with rfl | rfl
  · exact hexChar_mem _
  · exact hexChar_mem _

/-! ## Helper lemmas: string constants -/

lemma dir_custom_ne_input : DIR_CUSTOM_FOLDER ≠ DEFAULT_INPUT_FOLDER_NAME := by
  decide

lemma dir_custom_ne_output :
    DIR_CUSTOM_FOLDER ≠ DEFAULT_OUTPUT_FOLDER_NAME := by decide

lemma dir_custom_ne_meta : DIR_CUSTOM_FOLDER ≠ DIR_CUSTOM_WITH_METADATA := by
  decide

lemma dir_meta_ne_input :
    DIR_CUSTOM_WITH_METADATA ≠ DEFAULT_INPUT_FOLDER_NAME := by decide

lemma dir_meta_ne_output :
    DIR_CUSTOM_WITH_METADATA ≠ DEFAULT_OUTPUT_FOLDER_NAME := by decide

/-! ## C2 -/

/-- Claim C2: with directory-choice = custom-folder-with-metadata, a
metadata-substituted template beginning with "./" resolves to the default
input directory joined with the template minus its leading two characters,
and one beginning with "&/" resolves to the default output directory joined
with the template minus its leading two characters. -/
theorem custom_with_metadata_prefix_remap (ws : Workspace) (custom : String)
    (files : List FileSetting) :
    (str_take (ws.apply_metadata custom) 2 = "./" →
      get_base_directory ⟨DIR_CUSTOM_WITH_METADATA, custom, files⟩ ws =
        some (path_join ws.default_image_directory
          (str_drop (ws.apply_metadata custom) 2))) ∧
    (str_take (ws.apply_metadata custom) 2 = "&/" →
      get_base_directory ⟨DIR_CUSTOM_WITH_METADATA, custom, files⟩ ws =
        some (path_join ws.default_output_directory
          (str_drop (ws.apply_metadata custom) 2))) := by
  refine ⟨fun h => ?_, fun h => ?_⟩ <;>
    simp [get_base_directory, dir_meta_ne_input, dir_meta_ne_output, h]

/-- Witness for C2: both prefix cases exercised on a concrete workspace. -/
theorem custom_with_metadata_prefix_remap_witness :
    get_base_directory
        ⟨DIR_CUSTOM_WITH_METADATA, "./a", []⟩
        ⟨"/in", "/out", id, fun _ _ => []⟩ = some (path_join "/in" "a") ∧
    get_base_directory
        ⟨DIR_CUSTOM_WITH_METADATA, "&/b", []⟩
        ⟨"/in", "/out", id, fun _ _ => []⟩ = some (path_join "/out" "b") :=
  ⟨(custom_with_metadata_prefix_remap ⟨"/in", "/out", id, fun _ _ => []⟩
      "./a" []).1 (by decide),
   (custom_with_metadata_prefix_remap ⟨"/in", "/out", id, fun _ _ => []⟩
      "&/b" []).2 (by decide)⟩

/-! ## C3 -/

/-- Claim C3 counterexample: with directory-choice = custom-folder and template
"./x", the code does **not** return the template as configured — the "./"
prefix is remapped under the default input directory, because the prefix
check at lines 201-209 is outside the `DIR_CUSTOM_WITH_METADATA`-only
branch. -/
theorem custom_folder_as_is_counterexample :
    get_base_directory
        ⟨DIR_CUSTOM_FOLDER, "./x", [⟨"img.tif", "OrigBlue"⟩]⟩
        ⟨"/in", "/out", id, fun _ _ => []⟩ = some "/in/x" ∧
    ("/in/x" : String) ≠ "./x" := by
  constructor
  · decide
  · decide

/-- Claim C3 amended: with directory-choice = custom-folder the template gets no
metadata substitution, but the leading "./" and "&/" prefixes are remapped
exactly as in the custom-with-metadata case; only templates starting with
neither prefix are used as-is. -/
theorem custom_folder_no_substitution_prefix_remap (ws : Workspace)
    (custom : String) (files : List FileSetting) :
    get_base_directory ⟨DIR_CUSTOM_FOLDER, custom, files⟩ ws =
      some (if str_take custom 2 = "./" then
          path_join ws.default_image_directory (str_drop custom 2)
        else if str_take custom 2 = "&/" then
          path_join ws.default_output_directory (str_drop custom 2)
        else custom) := by
  simp [get_base_directory, dir_custom_ne_input, dir_custom_ne_output,
    dir_custom_ne_meta]

/-! ## C4 -/

lemma foldl_append_eq_flatten {α β : Type} (g : α → List β) :
    ∀ (l : List α) (acc : List β),
      l.foldl (fun cols fs => cols ++ g fs) acc = acc ++ (l.map g).flatten
  | [], acc => by simp
  | fs :: t, acc => by
      simp only [List.foldl_cons, List.map_cons, List.flatten_cons]
      rw [foldl_append_eq_flatten g t (acc ++ g fs), List.append_assoc]

lemma flatten_map_length_three {α β : Type} (g : α → List β)
    (hg : ∀ a, (g a).length = 3) :
    ∀ l : List α, ((l.map g).flatten).length = 3 * l.length
  | [] => by simp
  | fs :: t => by
      simp only [List.map_cons, List.flatten_cons, List.length_append, hg,
        flatten_map_length_three g hg t, List.length_cons]
      omega

/-- Claim C4: `get_measurement_columns` yields, in entry order, exactly the three
columns `FileName_<name>`, `PathName_<name>`, `MD5Digest_<name>` per
configured entry — with kinds file-name varchar, path-name varchar and
fixed-length-32 varchar on the "Image" entity — hence 3·n columns for n
entries. -/
theorem measurement_columns_shape (cfg : LoadSingleImage) :
    get_measurement_columns cfg =
      (cfg.file_settings.map (fun fs =>
        [(IMAGE, "FileName" ++ "_" ++ fs.image_name, ColType.varcharFileName),
         (IMAGE, "PathName" ++ "_" ++ fs.image_name, ColType.varcharPathName),
         (IMAGE, "MD5Digest" ++ "_" ++ fs.image_name,
           ColType.varcharFormat 32)])).flatten ∧
    (get_measurement_columns cfg).length = 3 * cfg.file_settings.length := by
  have h := foldl_append_eq_flatten
    (fun fs : FileSetting =>
      [(IMAGE, "FileName" ++ "_" ++ fs.image_name, ColType.varcharFileName),
       (IMAGE, "PathName" ++ "_" ++ fs.image_name, ColType.varcharPathName),
       (IMAGE, "MD5Digest" ++ "_" ++ fs.image_name,
         ColType.varcharFormat 32)])
    cfg.file_settings []
  refine ⟨by simpa [get_measurement_columns] using h, ?_⟩
  have h2 := flatten_map_length_three
    (fun fs : FileSetting =>
      [(IMAGE, "FileName" ++ "_" ++ fs.image_name, ColType.varcharFileName),
       (IMAGE, "PathName" ++ "_" ++ fs.image_name, ColType.varcharPathName),
       (IMAGE, "MD5Digest" ++ "_" ++ fs.image_name,
         ColType.varcharFormat 32)])
    (fun _ => rfl) cfg.file_settings
  rw [get_measurement_columns]
  rw [h]
  simpa using h2

/-! ## C5 -/

/-- Claim C5: the measurement-recording step writes, for identical pixel-array
byte content, the identical MD5 digest value — a 32-character string of
lowercase hexadecimal characters. -/
theorem md5_measurement_deterministic_hex (ws1 ws2 : Workspace)
    (root1 root2 : String) (p1 p2 : String × String)
    (h : ws1.pixel_bytes root1 p1.2 = ws2.pixel_bytes root2 p2.2) :
    ∃ dg : String,
      (IMAGE, "MD5Digest_" ++ p1.1, dg) ∈ image_measurements ws1 root1 p1 ∧
      (IMAGE, "MD5Digest_" ++ p2.1, dg) ∈ image_measurements ws2 root2 p2 ∧
      dg.length = 32 ∧ ∀ c ∈ dg.data, c ∈ hexDigits := by
  refine ⟨md5hexdigest (ws1.pixel_bytes root1 p1.2), ?_, ?_, ?_, ?_⟩
  · simp [image_measurements]
  · rw [h]
    simp [image_measurements]
  · exact md5hexdigest_length _
  · exact md5hexdigest_chars _

/-- Witness for C5 at a concrete workspace and entry. -/
theorem md5_measurement_deterministic_hex_witness :
    ∃ dg : String,
      (IMAGE, "MD5Digest_" ++ "A", dg) ∈
        image_measurements ⟨"/in", "/out", id, fun _ _ => []⟩ "/in"
          ("A", "f.tif") ∧
      (IMAGE, "MD5Digest_" ++ "A", dg) ∈
        image_measurements ⟨"/in", "/out", id, fun _ _ => []⟩ "/in"
          ("A", "f.tif") ∧
      dg.length = 32 ∧ ∀ c ∈ dg.data, c ∈ hexDigits :=
  md5_measurement_deterministic_hex ⟨"/in", "/out", id, fun _ _ => []⟩
    ⟨"/in", "/out", id, fun _ _ => []⟩ "/in" "/in" ("A", "f.tif")
    ("A", "f.tif") rfl

/-! ## C9 -/

/-- Claim C9: `prepare_to_create_batch` always raises `NameError` on its first
comparison — the name `DIR_DEFAULT_IMAGE_FOLDER` exists only as a local of
`upgrade_settings`, not at module scope — so the function never completes
normally and performs no path rewriting. -/
theorem prepare_to_create_batch_always_name_error (st : BatchSettings)
    (d1 d2 : String) (g f : String → String) :
    prepare_to_create_batch st d1 d2 g f =
      Except.error (PyErr.nameError "DIR_DEFAULT_IMAGE_FOLDER") := rfl

/-! ## C1 -/

/-- Claim C1: one configured entry `("img.tif", "OrigBlue")` with
directory-choice = default-input-folder.  `run` completes; the measurement
store receives `FileName_OrigBlue = "img.tif"`,
`PathName_OrigBlue = default input directory`, and `MD5Digest_OrigBlue`
equal to the 32-hex-character MD5 of the image's contiguous pixel bytes;
the provider for "OrigBlue" is registered with the image set.  The
hypothesis is the host metadata-substitution contract: a tag-free template
passes through unchanged. -/
theorem run_scenario_default_input (ws : Workspace) (custom : String)
    (h : ws.apply_metadata "img.tif" = "img.tif") :
    ∃ res : RunResult,
      run ⟨DEFAULT_INPUT_FOLDER_NAME, custom, [⟨"img.tif", "OrigBlue"⟩]⟩ ws =
        some res ∧
      (IMAGE, "FileName_OrigBlue", "img.tif") ∈ res.measurements ∧
      (IMAGE, "PathName_OrigBlue", ws.default_image_directory) ∈
        res.measurements ∧
      (∃ dg : String, (IMAGE, "MD5Digest_OrigBlue", dg) ∈ res.measurements ∧
        dg = md5hexdigest
          (ws.pixel_bytes ws.default_image_directory "img.tif") ∧
        dg.length = 32 ∧ ∀ c ∈ dg.data, c ∈ hexDigits) ∧
      (⟨"OrigBlue", ws.default_image_directory, "img.tif"⟩ : Provider) ∈
        res.providers := by
  have e1 : ("FileName_" ++ "OrigBlue" : String) = "FileName_OrigBlue" := by
    decide
  have e2 : ("PathName_" ++ "OrigBlue" : String) = "PathName_OrigBlue" := by
    decide
  have e3 : ("MD5Digest_" ++ "OrigBlue" : String) = "MD5Digest_OrigBlue" := by
    decide
  have hbase : get_base_directory
      ⟨DEFAULT_INPUT_FOLDER_NAME, custom, [⟨"img.tif", "OrigBlue"⟩]⟩ ws =
      some ws.default_image_directory := by
    simp [get_base_directory]
  have hd : get_file_names
      ⟨DEFAULT_INPUT_FOLDER_NAME, custom, [⟨"img.tif", "OrigBlue"⟩]⟩ ws =
      [("OrigBlue", "img.tif")] := by
    simp [get_file_names, upsert, h]
  refine ⟨⟨[⟨"OrigBlue", ws.default_image_directory, "img.tif"⟩],
    image_measurements ws ws.default_image_directory ("OrigBlue", "img.tif")⟩,
    ?_, ?_, ?_, ?_, ?_⟩
  · rw [run, hbase]
    simp [hd]
  · simp [image_measurements, e1]
  · simp [image_measurements, e2]
  · exact ⟨md5hexdigest (ws.pixel_bytes ws.default_image_directory "img.tif"),
      by simp [image_measurements, e3], rfl, md5hexdigest_length _,
      md5hexdigest_chars _⟩
  · simp

/-- Witness for C1 on a concrete workspace whose metadata substitution is
the identity. -/
theorem run_scenario_default_input_witness :
    ∃ res : RunResult,
      run ⟨DEFAULT_INPUT_FOLDER_NAME, ".", [⟨"img.tif", "OrigBlue"⟩]⟩
          ⟨"/in", "/out", id, fun _ _ => []⟩ = some res ∧
      (IMAGE, "FileName_OrigBlue", "img.tif") ∈ res.measurements ∧
      (IMAGE, "PathName_OrigBlue", "/in") ∈ res.measurements ∧
      (∃ dg : String, (IMAGE, "MD5Digest_OrigBlue", dg) ∈ res.measurements ∧
        dg = md5hexdigest [] ∧
        dg.length = 32 ∧ ∀ c ∈ dg.data, c ∈ hexDigits) ∧
      (⟨"OrigBlue", "/in", "img.tif"⟩ : Provider) ∈ res.providers :=
  run_scenario_default_input ⟨"/in", "/out", id, fun _ _ => []⟩ "." rfl

/-! ## Helper lemmas: settings migration -/

lemma get?_set_zero {α : Type} (l : List α) (a : α) (h : 0 < l.length) :
    (l.set 0 a).get? 0 = some a := by
  cases l with
  | nil => simp at h
  | cons b t => rfl

lemma set_eq_self_of_get? {α : Type} :
    ∀ (l : List α) (n : Nat) (a : α), l.get? n = some a → l.set n a = l
  | [], n, a, h => by simp at h
  | b :: t, 0, a, h => by
      simp only [List.get?] at h
      cases h
      rfl
  | b :: t, n + 1, a, h => by
      simp only [List.get?] at h
      simp [set_eq_self_of_get? t n a h]

lemma delSlice2_length (l : List String) (i : Nat) (h : i + 2 ≤ l.length) :
    (delSlice2 l i).length = l.length - 2 := by
  simp only [delSlice2, List.length_append, List.length_take,
    List.length_drop]
  omega

lemma delSlice2_get?_zero (l : List String) (i : Nat) (h1 : 1 ≤ i) :
    (delSlice2 l i).get? 0 = l.get? 0 := by
  cases l with
  | nil => simp [delSlice2]
  | cons b t =>
      cases i with
      | zero => omega
      | succ j => rfl

/-- A successful `checkDel` step: defined when `l[i+1]` is in range, keeps
the head (for `i ≥ 1`) and removes either zero or two elements. -/
lemma checkDel_some (l : List String) (i : Nat) (h : i + 1 < l.length) :
    ∃ l', checkDel l i = some l' ∧
      (l'.length = l.length ∨ l'.length = l.length - 2) ∧
      (1 ≤ i → l'.get? 0 = l.get? 0) := by
  have hget : ∃ v, l.get? (i + 1) = some v := by
    cases hg : l.get? (i + 1) with
    | none =>
        rw [List.get?_eq_none] at hg
        omega
    | some v => exact ⟨v, rfl⟩
  obtain ⟨v, hv⟩ := hget
  have hv2 : l[i + 1]? = some v := by simpa using hv
  by_cases hdnu : v = DO_NOT_USE
  · exact ⟨delSlice2 l i, by simp [checkDel, hv2, hdnu],
      Or.inr (delSlice2_length l i (by omega)),
      fun h1 => delSlice2_get?_zero l i h1⟩
  · exact ⟨l, by simp [checkDel, hv2, hdnu], Or.inl rfl, fun _ => rfl⟩

/-- On a legacy-length value list the strip loop succeeds and keeps the
first field. -/
lemma removeDoNotUse_some (l : List String) (h : 10 ≤ l.length) :
    ∃ l', removeDoNotUse l = some l' ∧ l'.get? 0 = l.get? 0 ∧
      4 ≤ l'.length := by
  obtain ⟨l8, h8, hlen8, hhead8⟩ := checkDel_some l 8 (by omega)
  have hl8 : 8 ≤ l8.length := by omega
  obtain ⟨l6, h6, hlen6, hhead6⟩ := checkDel_some l8 6 (by omega)
  have hl6 : 6 ≤ l6.length := by omega
  obtain ⟨l4, h4, hlen4, hhead4⟩ := checkDel_some l6 4 (by omega)
  refine ⟨l4, ?_, ?_, by omega⟩
  · simp [removeDoNotUse, h8, h6, h4]
  · rw [hhead4 (by omega), hhead6 (by omega), hhead8 (by omega)]

/-! ## C6 -/

/-- Claim C6: migrating a legacy (Matlab-originated) revision-4 value sequence
sets the first field from the sentinel in the second field — "." gives the
default-input-folder label, "&" the default-output-folder label, anything
else the custom-folder label — and returns revision 1 with the legacy
origin flag cleared. -/
theorem upgrade_matlab_rev4_dir_choice (sv : List String) (s1 : String)
    (hlen : 10 ≤ sv.length) (hs1 : sv.get? 1 = some s1) :
    ∃ nv : List String,
      upgrade_settings sv 4 true = some (nv, 1, false) ∧
      nv.get? 0 = some (if s1 = "." then DEFAULT_INPUT_FOLDER_NAME
        else if s1 = "&" then DEFAULT_OUTPUT_FOLDER_NAME
        else DIR_CUSTOM_FOLDER) := by
  set first := if s1 = "." then DIR_DEFAULT_IMAGE_FOLDER
    else if s1 = "&" then DIR_DEFAULT_OUTPUT_FOLDER
    else DIR_CUSTOM_FOLDER with hfirst
  obtain ⟨l', hrm, hhead, hlen'⟩ :=
    removeDoNotUse_some (sv.set 0 first) (by simpa using hlen)
  have hhead0 : l'.get? 0 = some first := by
    rw [hhead, get?_set_zero _ _ (by omega)]
  have hnostart : str_starts first "Default image" = false := by
    rw [hfirst]
    split
    · decide
    · split
      · decide
      · decide
  have hm : upgrade_matlab_phase sv 4 true = some (l', 1, false) := by
    rw [upgrade_matlab_phase, if_pos (by simp)]
    simp only [hs1]
    rw [← hfirst, hrm]
    rfl
  have hr : upgrade_rename_phase l' 1 false = some l' := by
    rw [upgrade_rename_phase, if_pos (by simp), hhead0]
    simp [hnostart]
  have hstd : standardize_default_folder_names l' 0 =
      l'.set 0 (std_folder_name first) := by
    rw [standardize_default_folder_names, hhead0]
  refine ⟨l'.set 0 (std_folder_name first), ?_, ?_⟩
  · rw [upgrade_settings, hm]
    simp only [hr, hstd]
  · rw [get?_set_zero _ _ (by omega), hfirst]
    by_cases h1 : s1 = "."
    · simp only [if_pos h1]
      decide
    · by_cases h2 : s1 = "&"
      · simp only [if_neg h1, if_pos h2]
        decide
      · simp only [if_neg h1, if_neg h2]
        decide

/-- Witness for C6 with the "." sentinel on a concrete legacy-length list. -/
theorem upgrade_matlab_rev4_dir_choice_witness :
    ∃ nv : List String,
      upgrade_settings ["", ".", "f1", "N1", "f2", "N2", "f3", "N3", "f4",
        "N4"] 4 true = some (nv, 1, false) ∧
      nv.get? 0 = some (if ("." : String) = "." then DEFAULT_INPUT_FOLDER_NAME
        else if ("." : String) = "&" then DEFAULT_OUTPUT_FOLDER_NAME
        else DIR_CUSTOM_FOLDER) :=
  upgrade_matlab_rev4_dir_choice
    ["", ".", "f1", "N1", "f2", "N2", "f3", "N3", "f4", "N4"] "."
    (by decide) (by decide)

/-! ## C7 -/

/-- Claim C7: the strip loop of the legacy migration examines the pairs at
offsets 8, 6, 4 in that descending order and deletes the two fields of each
pair whose image-name field is "Do not use": with none disabled the list is
unchanged; a single disabled pair at offset 6 (resp. 8, 4) removes exactly
that pair, shortening the list by exactly 2; with all three disabled all
three pairs go. -/
theorem strip_do_not_use_offsets (l : List String) (hlen : l.length = 10) :
    ((l.getD 9 "" ≠ DO_NOT_USE ∧ l.getD 7 "" ≠ DO_NOT_USE ∧
        l.getD 5 "" ≠ DO_NOT_USE) → removeDoNotUse l = some l) ∧
    ((l.getD 9 "" ≠ DO_NOT_USE ∧ l.getD 7 "" = DO_NOT_USE ∧
        l.getD 5 "" ≠ DO_NOT_USE) →
      removeDoNotUse l = some (l.take 6 ++ l.drop 8) ∧
        (l.take 6 ++ l.drop 8).length = l.length - 2) ∧
    ((l.getD 9 "" = DO_NOT_USE ∧ l.getD 7 "" ≠ DO_NOT_USE ∧
        l.getD 5 "" ≠ DO_NOT_USE) →
      removeDoNotUse l = some (l.take 8 ++ l.drop 10)) ∧
    ((l.getD 9 "" ≠ DO_NOT_USE ∧ l.getD 7 "" ≠ DO_NOT_USE ∧
        l.getD 5 "" = DO_NOT_USE) →
      removeDoNotUse l = some (l.take 4 ++ l.drop 6)) ∧
    ((l.getD 9 "" = DO_NOT_USE ∧ l.getD 7 "" = DO_NOT_USE ∧
        l.getD 5 "" = DO_NOT_USE) → removeDoNotUse l = some (l.take 4)) := by
  rcases l with _ | ⟨a0, l⟩
  · simp at hlen
  rcases l with _ | ⟨a1, l⟩
  · simp at hlen
  rcases l with _ | ⟨a2, l⟩
  · simp at hlen
  rcases l with _ | ⟨a3, l⟩
  · simp at hlen
  rcases l with _ | ⟨a4, l⟩
  · simp at hlen
  rcases l with _ | ⟨a5, l⟩
  · simp at hlen
  rcases l with _ | ⟨a6, l⟩
  · simp at hlen
  rcases l with _ | ⟨a7, l⟩
  · simp at hlen
  rcases l with _ | ⟨a8, l⟩
  · simp at hlen
  rcases l with _ | ⟨a9, l⟩
  · simp at hlen
  have hnil : l = [] := by
    simpa using hlen
  subst hnil
  refine ⟨fun ⟨h9, h7, h5⟩ => ?_, fun ⟨h9, h7, h5⟩ => ?_,
    fun ⟨h9, h7, h5⟩ => ?_, fun ⟨h9, h7, h5⟩ => ?_,
    fun ⟨h9, h7, h5⟩ => ?_⟩ <;>
    simp only [List.getD_cons_succ, List.getD_cons_zero] at h9 h7 h5 <;>
    simp [removeDoNotUse, checkDel, delSlice2, h9, h7, h5]

/-- Witness for C7: a single disabled pair at offset 6. -/
theorem strip_do_not_use_offsets_witness :
    removeDoNotUse ["", ".", "f1", "N1", "f2", "N2", "f3", "Do not use",
        "f4", "N4"] =
      some ((["", ".", "f1", "N1", "f2", "N2", "f3", "Do not use", "f4",
        "N4"] : List String).take 6 ++
        (["", ".", "f1", "N1", "f2", "N2", "f3", "Do not use", "f4",
          "N4"] : List String).drop 8) ∧
    ((["", ".", "f1", "N1", "f2", "N2", "f3", "Do not use", "f4",
        "N4"] : List String).take 6 ++
      (["", ".", "f1", "N1", "f2", "N2", "f3", "Do not use", "f4",
        "N4"] : List String).drop 8).length =
      (["", ".", "f1", "N1", "f2", "N2", "f3", "Do not use", "f4",
        "N4"] : List String).length - 2 :=
  (strip_do_not_use_offsets
    ["", ".", "f1", "N1", "f2", "N2", "f3", "Do not use", "f4", "N4"]
    (by decide)).2.1 ⟨by decide, by decide, by decide⟩

/-! ## C8 -/

/-- Claim C8: `upgrade_settings` is the identity on already-current
configurations — revision 1, non-legacy, directory-choice not starting with
"Default image" and already in standardized naming: same values, same
revision, same origin flag. -/
theorem upgrade_idempotent_on_current (sv : List String) (s0 : String)
    (h0 : sv.get? 0 = some s0)
    (hns : str_starts s0 "Default image" = false)
    (hstd : std_folder_name s0 = s0) :
    upgrade_settings sv 1 false = some (sv, 1, false) := by
  have hm : upgrade_matlab_phase sv 1 false = some (sv, 1, false) := by
    rw [upgrade_matlab_phase, if_neg (by simp)]
  have hr : upgrade_rename_phase sv 1 false = some sv := by
    rw [upgrade_rename_phase, if_pos (by simp)]
    simp only [h0]
    simp [hns]
  have hst : standardize_default_folder_names sv 0 = sv := by
    rw [standardize_default_folder_names]
    simp only [h0, hstd]
    exact set_eq_self_of_get? sv 0 s0 h0
  rw [upgrade_settings, hm]
  simp only [hr, hst]

/-- Witness for C8 on a current configuration. -/
theorem upgrade_idempotent_on_current_witness :
    upgrade_settings [DEFAULT_INPUT_FOLDER_NAME, ".", "img.tif", "OrigBlue"]
        1 false =
      some ([DEFAULT_INPUT_FOLDER_NAME, ".", "img.tif", "OrigBlue"], 1,
        false) :=
  upgrade_idempotent_on_current
    [DEFAULT_INPUT_FOLDER_NAME, ".", "img.tif", "OrigBlue"]
    DEFAULT_INPUT_FOLDER_NAME (by decide) (by decide) (by decide)

/-! ## Helper lemmas: strings -/

lemma string_data_append (a b : String) : (a ++ b).data = a.data ++ b.data :=
  rfl

lemma string_eq_of_data {a b : String} (h : a.data = b.data) : a = b := by
  cases a with
  | mk da =>
      cases b with
      | mk db =>
          have h2 : da = db := h
          rw [h2]

lemma str_app_right_inj (p a b : String) (h : p ++ a = p ++ b) : a = b := by
  have h2 := congrArg String.data h
  rw [string_data_append, string_data_append] at h2
  exact string_eq_of_data (List.append_cancel_left h2)

lemma str_ne_of_head (c c' : Char) (pl ql : List Char) (p q a b : String)
    (hp : p.data = c :: pl) (hq : q.data = c' :: ql) (hc : c ≠ c') :
    p ++ a ≠ q ++ b := by
  intro h
  have h2 := congrArg String.data h
  rw [string_data_append, string_data_append, hp, hq] at h2
  simp only [List.cons_append, List.cons.injEq] at h2
  exact hc h2.1

lemma fn_ne_pn (n m : String) : "FileName_" ++ n ≠ "PathName_" ++ m :=
  str_ne_of_head 'F' 'P' "ileName_".data "athName_".data _ _ _ _ rfl rfl
    (by decide)

lemma pn_ne_fn (n m : String) : "PathName_" ++ n ≠ "FileName_" ++ m :=
  str_ne_of_head 'P' 'F' "athName_".data "ileName_".data _ _ _ _ rfl rfl
    (by decide)

lemma md_ne_fn (n m : String) : "MD5Digest_" ++ n ≠ "FileName_" ++ m :=
  str_ne_of_head 'M' 'F' "D5Digest_".data "ileName_".data _ _ _ _ rfl rfl
    (by decide)

lemma fn_ne_md (n m : String) : "FileName_" ++ n ≠ "MD5Digest_" ++ m :=
  str_ne_of_head 'F' 'M' "ileName_".data "D5Digest_".data _ _ _ _ rfl rfl
    (by decide)

lemma md_ne_pn (n m : String) : "MD5Digest_" ++ n ≠ "PathName_" ++ m :=
  str_ne_of_head 'M' 'P' "D5Digest_".data "athName_".data _ _ _ _ rfl rfl
    (by decide)

lemma pn_ne_md (n m : String) : "PathName_" ++ n ≠ "MD5Digest_" ++ m :=
  str_ne_of_head 'P' 'M' "athName_".data "D5Digest_".data _ _ _ _ rfl rfl
    (by decide)

/-! ## Helper lemmas: dict refinement -/

lemma dict_get_upsert_self (k v : String) :
    ∀ d : List (String × String), dict_get k (upsert k v d) = some v
  | [] => by simp [upsert, dict_get]
  | p :: rest => by
      by_cases hp : p.1 = k
      · simp [upsert, dict_get, hp]
      · simp [upsert, dict_get, hp, dict_get_upsert_self k v rest]

lemma dict_get_upsert_ne (k k' v : String) (hk : k' ≠ k) :
    ∀ d : List (String × String), dict_get k (upsert k' v d) = dict_get k d
  | [] => by simp [upsert, dict_get, hk]
  | p :: rest => by
      by_cases hp : p.1 = k'
      · have hpk : p.1 ≠ k := by
          rw [hp]
          exact hk
        simp [upsert, dict_get, hp, hk, hpk]
      · by_cases hpk : p.1 = k
        · have hkk : ¬(k = k') := fun he => hk he.symm
          simp [upsert, dict_get, hp, hpk, hkk]
        · simp [upsert, dict_get, hp, hpk, dict_get_upsert_ne k k' v hk rest]

lemma upsert_keys_mem (a k v : String) :
    ∀ d : List (String × String),
      (a ∈ (upsert k v d).map Prod.fst ↔ a = k ∨ a ∈ d.map Prod.fst)
  | [] => by simp [upsert]
  | p :: rest => by
      by_cases hp : p.1 = k
      · simp only [upsert, if_pos hp, List.map_cons, List.mem_cons]
        rw [hp]
        tauto
      · simp only [upsert, if_neg hp, List.map_cons, List.mem_cons,
          upsert_keys_mem a k v rest]
        tauto

lemma upsert_keys_nodup (k v : String) :
    ∀ d : List (String × String), ((d.map Prod.fst).Nodup) →
      ((upsert k v d).map Prod.fst).Nodup
  | [], _ => by simp [upsert]
  | p :: rest, h => by
      rw [List.map_cons, List.nodup_cons] at h
      by_cases hp : p.1 = k
      · have hu : upsert k v (p :: rest) = (k, v) :: rest := by
          simp [upsert, hp]
        rw [hu, List.map_cons, List.nodup_cons]
        exact ⟨hp ▸ h.1, h.2⟩
      · have hu : upsert k v (p :: rest) = p :: upsert k v rest := by
          simp [upsert, hp]
        rw [hu, List.map_cons, List.nodup_cons]
        refine ⟨?_, upsert_keys_nodup k v rest h.2⟩
        rw [upsert_keys_mem]
        push_neg
        exact ⟨hp, h.1⟩

lemma get_file_names_aux_nodup (ws : Workspace) :
    ∀ (l : List FileSetting) (acc : List (String × String)),
      (acc.map Prod.fst).Nodup →
      ((l.foldl (fun acc fs =>
        upsert fs.image_name (ws.apply_metadata fs.file_name) acc) acc).map
          Prod.fst).Nodup
  | [], _, h => h
  | fs :: t, acc, h =>
      get_file_names_aux_nodup ws t
        (upsert fs.image_name (ws.apply_metadata fs.file_name) acc)
        (upsert_keys_nodup _ _ acc h)

lemma get_file_names_keys_nodup (cfg : LoadSingleImage) (ws : Workspace) :
    ((get_file_names cfg ws).map Prod.fst).Nodup :=
  get_file_names_aux_nodup ws cfg.file_settings [] (by simp)

lemma dict_get_eq_none_of_not_mem (k : String) :
    ∀ d : List (String × String), k ∉ d.map Prod.fst → dict_get k d = none
  | [], _ => rfl
  | p :: rest, h => by
      simp only [List.map_cons, List.mem_cons, not_or] at h
      have hp : p.1 ≠ k := fun he => h.1 he.symm
      simp [dict_get, hp, dict_get_eq_none_of_not_mem k rest h.2]

lemma countP_keys_of_nodup (name : String) :
    ∀ d : List (String × String), ((d.map Prod.fst).Nodup) →
      d.countP (fun p => p.1 = name) =
        if (dict_get name d).isSome then 1 else 0
  | [], _ => by simp [dict_get]
  | p :: rest, h => by
      rw [List.map_cons, List.nodup_cons] at h
      by_cases hp : p.1 = name
      · have hnone : dict_get name rest = none :=
          dict_get_eq_none_of_not_mem name rest (hp ▸ h.1)
        have hr := countP_keys_of_nodup name rest h.2
        rw [hnone] at hr
        simp only [List.countP_cons, hr, dict_get, hp, if_pos rfl]
        simp
      · have hr := countP_keys_of_nodup name rest h.2
        simp only [List.countP_cons, hr, dict_get, hp, if_neg hp]
        simp [hp]

lemma last_with_name_append (name : String) (l : List FileSetting)
    (fs : FileSetting) :
    last_with_name name (l ++ [fs]) =
      if fs.image_name = name then some fs else last_with_name name l := by
  rw [last_with_name, List.foldl_append]
  rfl

lemma last_with_name_exists (name : String) (l : List FileSetting) :
    (∃ fs ∈ l, fs.image_name = name) →
    ∃ fs, last_with_name name l = some fs ∧ fs.image_name = name := by
  induction l using List.reverseRecOn with
  | nil => simp
  | append_singleton l fs ih =>
      rintro ⟨fs0, hmem, hname⟩
      by_cases hm : fs.image_name = name
      · exact ⟨fs, by rw [last_with_name_append, if_pos hm], hm⟩
      · rw [last_with_name_append, if_neg hm]
        apply ih
        rcases List.mem_append.mp hmem with h | h
        · exact ⟨fs0, h, hname⟩
        · rw [List.mem_singleton] at h
          subst h
          exact absurd hname hm

lemma dict_get_fold (ws : Workspace) (name : String) (l : List FileSetting) :
    dict_get name (l.foldl (fun acc fs =>
      upsert fs.image_name (ws.apply_metadata fs.file_name) acc) []) =
    (last_with_name name l).map fun fs => ws.apply_metadata fs.file_name := by
  induction l using List.reverseRecOn with
  | nil => rfl
  | append_singleton l fs ih =>
      have hf : (l ++ [fs]).foldl (fun acc fs =>
          upsert fs.image_name (ws.apply_metadata fs.file_name) acc) [] =
          upsert fs.image_name (ws.apply_metadata fs.file_name)
            (l.foldl (fun acc fs =>
              upsert fs.image_name (ws.apply_metadata fs.file_name) acc) []) := by
        rw [List.foldl_append]
        rfl
      rw [hf, last_with_name_append]
      by_cases hm : fs.image_name = name
      · rw [hm, dict_get_upsert_self]
        simp
      · rw [dict_get_upsert_ne name fs.image_name _ hm, if_neg hm, ih]

lemma dict_get_get_file_names (cfg : LoadSingleImage) (ws : Workspace)
    (name : String) :
    dict_get name (get_file_names cfg ws) =
      (last_with_name name cfg.file_settings).map
        fun fs => ws.apply_metadata fs.file_name :=
  dict_get_fold ws name cfg.file_settings

lemma providers_countP (root name : String) :
    ∀ d : List (String × String),
      (d.map (fun p => (⟨p.1, root, p.2⟩ : Provider))).countP
        (fun pr => pr.name = name) = d.countP (fun p => p.1 = name)
  | [] => rfl
  | p :: rest => by
      simp only [List.map_cons, List.countP_cons,
        providers_countP root name rest]

lemma meas_countP_fn (ws : Workspace) (root name : String) :
    ∀ d : List (String × String),
      ((d.map (image_measurements ws root)).flatten).countP
        (fun m => m.2.1 = "FileName_" ++ name) =
      d.countP (fun p => p.1 = name)
  | [] => rfl
  | p :: rest => by
      rw [List.map_cons, List.flatten_cons, List.countP_append,
        meas_countP_fn ws root name rest]
      by_cases hp : p.1 = name
      · have e1 : ("FileName_" ++ p.1) = "FileName_" ++ name := by rw [hp]
        simp [image_measurements, List.countP_cons, e1, pn_ne_fn, md_ne_fn, hp]
        omega
      · have e1 : ¬(("FileName_" ++ p.1) = "FileName_" ++ name) :=
          fun h => hp (str_app_right_inj _ _ _ h)
        simp [image_measurements, List.countP_cons, e1, pn_ne_fn, md_ne_fn, hp]

lemma meas_countP_pn (ws : Workspace) (root name : String) :
    ∀ d : List (String × String),
      ((d.map (image_measurements ws root)).flatten).countP
        (fun m => m.2.1 = "PathName_" ++ name) =
      d.countP (fun p => p.1 = name)
  | [] => rfl
  | p :: rest => by
      rw [List.map_cons, List.flatten_cons, List.countP_append,
        meas_countP_pn ws root name rest]
      by_cases hp : p.1 = name
      · have e1 : ("PathName_" ++ p.1) = "PathName_" ++ name := by rw [hp]
        simp [image_measurements, List.countP_cons, e1, fn_ne_pn, md_ne_pn, hp]
        omega
      · have e1 : ¬(("PathName_" ++ p.1) = "PathName_" ++ name) :=
          fun h => hp (str_app_right_inj _ _ _ h)
        simp [image_measurements, List.countP_cons, e1, fn_ne_pn, md_ne_pn, hp]

lemma meas_countP_md (ws : Workspace) (root name : String) :
    ∀ d : List (String × String),
      ((d.map (image_measurements ws root)).flatten).countP
        (fun m => m.2.1 = "MD5Digest_" ++ name) =
      d.countP (fun p => p.1 = name)
  | [] => rfl
  | p :: rest => by
      rw [List.map_cons, List.flatten_cons, List.countP_append,
        meas_countP_md ws root name rest]
      by_cases hp : p.1 = name
      · have e1 : ("MD5Digest_" ++ p.1) = "MD5Digest_" ++ name := by rw [hp]
        simp [image_measurements, List.countP_cons, e1, fn_ne_md, pn_ne_md, hp]
        omega
      · have e1 : ¬(("MD5Digest_" ++ p.1) = "MD5Digest_" ++ name) :=
          fun h => hp (str_app_right_inj _ _ _ h)
        simp [image_measurements, List.countP_cons, e1, fn_ne_md, pn_ne_md, hp]

/-! ## C10 -/

/-- Claim C10: when two or more configured entries share a logical image name,
`get_file_names` has a single binding for that name — the
metadata-substituted filename of the *last* such entry — and `run`
registers exactly one provider and writes exactly one
FileName/PathName/MD5Digest measurement triple for that name. -/
theorem duplicate_names_last_wins (cfg : LoadSingleImage) (ws : Workspace)
    (name : String)
    (hdup : 2 ≤ cfg.file_settings.countP (fun fs => fs.image_name = name)) :
    ∃ fsLast : FileSetting,
      last_with_name name cfg.file_settings = some fsLast ∧
      dict_get name (get_file_names cfg ws) =
        some (ws.apply_metadata fsLast.file_name) ∧
      (get_file_names cfg ws).countP (fun p => p.1 = name) = 1 ∧
      ∀ res : RunResult, run cfg ws = some res →
        res.providers.countP (fun pr => pr.name = name) = 1 ∧
        res.measurements.countP
          (fun m => m.2.1 = "FileName_" ++ name) = 1 ∧
        res.measurements.countP
          (fun m => m.2.1 = "PathName_" ++ name) = 1 ∧
        res.measurements.countP
          (fun m => m.2.1 = "MD5Digest_" ++ name) = 1 := by
  have hex : ∃ fs ∈ cfg.file_settings, fs.image_name = name := by
    have hpos : 0 < cfg.file_settings.countP
        (fun fs => fs.image_name = name) := by omega
    have h2 := List.countP_pos_iff.mp hpos
    simpa using h2
  obtain ⟨fsLast, hlast, _⟩ := last_with_name_exists name cfg.file_settings
    hex
  have hdg : dict_get name (get_file_names cfg ws) =
      some (ws.apply_metadata fsLast.file_name) := by
    rw [dict_get_get_file_names, hlast]
    rfl
  have hcount : (get_file_names cfg ws).countP (fun p => p.1 = name) = 1 := by
    rw [countP_keys_of_nodup name (get_file_names cfg ws)
      (get_file_names_keys_nodup cfg ws), hdg]
    rfl
  refine ⟨fsLast, hlast, hdg, hcount, ?_⟩
  intro res hres
  rw [run] at hres
  cases hbase : get_base_directory cfg ws with
  | none =>
      rw [hbase] at hres
      simp at hres
  | some root =>
      rw [hbase] at hres
      simp only [Option.map_some', Option.some.injEq] at hres
      subst hres
      refine ⟨?_, ?_, ?_, ?_⟩
      · show ((get_file_names cfg ws).map
            (fun p => (⟨p.1, root, p.2⟩ : Provider))).countP
            (fun pr => pr.name = name) = 1
        rw [providers_countP]
        exact hcount
      · show (((get_file_names cfg ws).map
            (image_measurements ws root)).flatten).countP
            (fun m => m.2.1 = "FileName_" ++ name) = 1
        rw [meas_countP_fn]
        exact hcount
      · show (((get_file_names cfg ws).map
            (image_measurements ws root)).flatten).countP
            (fun m => m.2.1 = "PathName_" ++ name) = 1
        rw [meas_countP_pn]
        exact hcount
      · show (((get_file_names cfg ws).map
            (image_measurements ws root)).flatten).countP
            (fun m => m.2.1 = "MD5Digest_" ++ name) = 1
        rw [meas_countP_md]
        exact hcount

/-- Witness for C10: two entries both named "X". -/
theorem duplicate_names_last_wins_witness :
    ∃ fsLast : FileSetting,
      last_with_name "X" [⟨"a.tif", "X"⟩, ⟨"b.tif", "X"⟩] = some fsLast ∧
      dict_get "X" (get_file_names
        ⟨DEFAULT_INPUT_FOLDER_NAME, ".", [⟨"a.tif", "X"⟩, ⟨"b.tif", "X"⟩]⟩
        ⟨"/in", "/out", id, fun _ _ => []⟩) =
        some ((⟨"/in", "/out", id, fun _ _ => []⟩ : Workspace).apply_metadata
          fsLast.file_name) ∧
      (get_file_names
        ⟨DEFAULT_INPUT_FOLDER_NAME, ".", [⟨"a.tif", "X"⟩, ⟨"b.tif", "X"⟩]⟩
        ⟨"/in", "/out", id, fun _ _ => []⟩).countP
          (fun p => p.1 = "X") = 1 ∧
      ∀ res : RunResult, run
        ⟨DEFAULT_INPUT_FOLDER_NAME, ".", [⟨"a.tif", "X"⟩, ⟨"b.tif", "X"⟩]⟩
        ⟨"/in", "/out", id, fun _ _ => []⟩ = some res →
        res.providers.countP (fun pr => pr.name = "X") = 1 ∧
        res.measurements.countP
          (fun m => m.2.1 = "FileName_" ++ "X") = 1 ∧
        res.measurements.countP
          (fun m => m.2.1 = "PathName_" ++ "X") = 1 ∧
        res.measurements.countP
          (fun m => m.2.1 = "MD5Digest_" ++ "X") = 1 :=
  duplicate_names_last_wins
    ⟨DEFAULT_INPUT_FOLDER_NAME, ".", [⟨"a.tif", "X"⟩, ⟨"b.tif", "X"⟩]⟩
    ⟨"/in", "/out", id, fun _ _ => []⟩ "X" (by decide)
